import Mathlib

/-!
Shallow embedding of the BeatStream metered-streaming server
(packages/server: db/schema.sql RPC functions, routes/deposit.ts WebSocket
metering loop, routes/sessions.ts settle flow, services/arc.ts settlement,
services/ens.ts loyalty computation, db/supabase.ts helpers, migration v2
stream_history / fan_subdomains tables).

Conventions of the embedding:
* Each SQL RPC function (a single UPDATE/INSERT statement) is one atomic
  step; concurrency over the shared store is modelled as an arbitrary
  interleaving, i.e. an arbitrary sequence of such atomic steps.
* BIGINT columns and JS numbers holding integer counters are `Int`.
* Fallible external services are parameters of the functions that call
  them (e.g. `ArcOutcome` is the behaviour of the Circle settlement
  service on one call).
* The floating-point `usdcAmount = totalBeats / 1000` display value is
  not modelled; no claim depends on it.  Crediting the artist is
  modelled as the boolean fact that `creditArtistEarnings` was called.
-/

namespace BeatStream

/-- Session status column; schema.sql CHECK allows exactly these three. -/
inductive SessionStatus
  | OPEN
  | SETTLED
  | DISPUTED
deriving DecidableEq, Repr

/-- One row of the `sessions` table (fields the core reads/writes). -/
structure Session where
  session_id : String
  user_wallet : String
  artist_id : String
  track_id : String
  total_beats_paid : Int
  last_signature : Option String
  status : SessionStatus
deriving DecidableEq, Repr

/-- JS `String.prototype.toLowerCase` / SQL `LOWER`, on the ASCII
wallet addresses and names this system handles (char-by-char ASCII
lowercasing; written over the char list so it evaluates in the
kernel). -/
def toLowerCase (s : String) : String :=
  ⟨s.data.map Char.toLower⟩

/-! ### Ledger RPCs (schema.sql) -/

/-- `credit_beats(p_wallet, p_beats)`: single atomic UPDATE adding
`p_beats` to the listener's `beats_balance`; returns the new balance. -/
def credit_beats (balance : Int) (p_beats : Int) : Int :=
  balance + p_beats

/-- `debit_beat(p_wallet)`: single atomic UPDATE decrementing
`beats_balance` by 1 only where `beats_balance > 0`; returns the new
balance, or `-1` (leaving the row unchanged) when no row matched.
First component: stored balance after the call; second: returned value. -/
def debit_beat (balance : Int) : Int × Int :=
  if balance > 0 then (balance - 1, balance - 1) else (balance, -1)

/-- An atomic operation on one listener's balance.  Deposits credit a
non-negative number of beats (the deposit route computes
`Math.floor(amount * BEATS_PER_USDC)` from a verified deposit). -/
inductive BalanceOp
  | deposit (amount : Nat)
  | debit
deriving DecidableEq, Repr

/-- Effect of one atomic balance operation on the stored balance. -/
def applyBalanceOp (balance : Int) : BalanceOp → Int
  | BalanceOp.deposit n => credit_beats balance n
  | BalanceOp.debit => (debit_beat balance).1

/-- `increment_session_payment(p_session_id, p_signature)`: single atomic
UPDATE adding 1 to `total_beats_paid` and storing the signature, only
where `status = OPEN`; a non-OPEN row is left unchanged. -/
def increment_session_payment (s : Session) (sig : String) : Session :=
  if s.status = SessionStatus.OPEN then
    { s with total_beats_paid := s.total_beats_paid + 1, last_signature := some sig }
  else
    s

/-- `settleSession` (db/supabase.ts): UPDATE sessions SET status =
SETTLED WHERE session_id = ...; note there is no `status = OPEN`
condition, the write is unconditional on the matched row. -/
def settleSession (s : Session) : Session :=
  { s with status := SessionStatus.SETTLED }

/-- An atomic operation on one session row. -/
inductive SessionOp
  | tick (sig : String)
  | settle
deriving DecidableEq, Repr

/-- Effect of one atomic session operation. -/
def applySessionOp (s : Session) : SessionOp → Session
  | SessionOp.tick sig => increment_session_payment s sig
  | SessionOp.settle => settleSession s

/-! ### WebSocket metering loop (routes/deposit.ts, second file: ws stream handler) -/

/-- In-memory per-connection stream state (`ActiveStream` in the code). -/
structure ActiveStream where
  sessionId : String
  wallet : String
  channelId : Option String
  intervalActive : Bool
  secondsPlayed : Int
  totalBeatsPaid : Int
deriving DecidableEq, Repr

/-- Messages `tickBeat` sends to the client over the WebSocket. -/
inductive WsEvent
  | insufficient_beats (secondsPlayed totalBeatsPaid : Int)
  | beat_tick (secondsPlayed beatsRemaining totalBeatsPaid : Int)
deriving DecidableEq, Repr

/-- Recognizer for the exhaustion signal. -/
def WsEvent.isInsufficient : WsEvent → Bool
  | WsEvent.insufficient_beats _ _ => true
  | _ => false

/-- Everything one `tickBeat` call can read or write: the listener's
stored balance, the connection's `ActiveStream`, the session row, the
log of `updateChannelState` calls (channelId, wallet, newBalance,
totalBeatsPaid), the count of `incrementSessionPayment` calls, and the
events sent to the client. -/
structure TickState where
  balance : Int
  stream : ActiveStream
  session : Session
  channelUpdates : List (String × String × Int × Int)
  incrementCalls : Nat
  events : List WsEvent
deriving DecidableEq, Repr

/-- `tickBeat(ws, stream)`: debit 1 beat; if the returned balance is
negative, send `insufficient_beats` and clear the interval (nothing else
changes); otherwise bump `secondsPlayed` and `totalBeatsPaid`, record
the payment via `increment_session_payment`, update the Yellow channel
when a `channelId` is present, and send `beat_tick`.  `sig` is the
`auto_${Date.now()}` signature of this tick. -/
def tickBeat (sig : String) (st : TickState) : TickState :=
  let debit := debit_beat st.balance
  let newBalance := debit.2
  if newBalance < 0 then
    { st with
      balance := debit.1,
      stream := { st.stream with intervalActive := false },
      events := st.events ++
        [WsEvent.insufficient_beats st.stream.secondsPlayed st.stream.totalBeatsPaid] }
  else
    let stream2 := { st.stream with
      secondsPlayed := st.stream.secondsPlayed + 1,
      totalBeatsPaid := st.stream.totalBeatsPaid + 1 }
    let session2 := increment_session_payment st.session sig
    let updates2 :=
      match st.stream.channelId with
      | some cid => st.channelUpdates ++ [(cid, st.stream.wallet, newBalance, stream2.totalBeatsPaid)]
      | none => st.channelUpdates
    { balance := debit.1,
      stream := stream2,
      session := session2,
      channelUpdates := updates2,
      incrementCalls := st.incrementCalls + 1,
      events := st.events ++
        [WsEvent.beat_tick stream2.secondsPlayed newBalance stream2.totalBeatsPaid] }

/-- Run the per-second interval: each scheduled tick fires only while
the interval is still set (the failing tick clears it, after which no
further `tickBeat` runs). -/
def runTicks (sigs : List String) (st : TickState) : TickState :=
  sigs.foldl (fun s sig => if s.stream.intervalActive then tickBeat sig s else s) st

/-! ### Circle Arc settlement (services/arc.ts) -/

/-- The module-level configuration `settlePayment` consults:
`walletSdk`, `circleWalletId`, `vaultContractAddress`. -/
structure ArcConfig where
  walletSdk : Bool
  circleWalletId : Option String
  vaultContractAddress : Option String
deriving DecidableEq, Repr

/-- `settlePayment` simulates unless all three are present. -/
def arcConfigured (cfg : ArcConfig) : Bool :=
  cfg.walletSdk && cfg.circleWalletId.isSome && cfg.vaultContractAddress.isSome

/-- Behaviour of the external Circle service on one
`createContractExecutionTransaction` call: a submitted transaction
(with an optional transaction id in the response) or a thrown error. -/
inductive ArcOutcome
  | submitted (txId : Option String)
  | failed
deriving DecidableEq, Repr

/-- Result shape of `settlePayment` (the `usdcAmount` display field is
omitted, see the header note). -/
structure SettlementResult where
  success : Bool
  txHash : Option String
deriving DecidableEq, Repr

/-- `settlePayment(params)`: if Circle is not fully configured, return a
simulated success with txHash `0xsim_<sessionId>`; otherwise make
exactly one execution call, returning success with the service's tx id
(or `pending_<sessionId>`), and `success: false` if the call throws.
There is no retry and no backoff in the source. -/
def settlePayment (cfg : ArcConfig) (svc : ArcOutcome) (sessionId : String) :
    SettlementResult :=
  if arcConfigured cfg = false then
    { success := true, txHash := some ("0xsim_" ++ sessionId) }
  else
    match svc with
    | ArcOutcome.submitted txId =>
        { success := true, txHash := some (txId.getD ("pending_" ++ sessionId)) }
    | ArcOutcome.failed => { success := false, txHash := none }

/-! ### Settle route (routes/sessions.ts, POST /api/sessions/settle) -/

/-- Responses of the settle route relevant to the session checks
(auth/field validation upstream of them is not modelled). -/
inductive SettleResponse
  | alreadySettled
  | forbidden
  | ok (txHash : Option String)
deriving DecidableEq, Repr

/-- Observable outcome of one settle request: HTTP-level response, the
session row afterwards, whether `creditArtistEarnings` was called, how
many times `settlePayment` was called, and its result if called. -/
structure SettleFlowOutcome where
  response : SettleResponse
  session : Session
  artistCredited : Bool
  settlementAttempts : Nat
  settlementResult : Option SettlementResult
deriving DecidableEq, Repr

/-- The settle route after signature verification: reject when the
session is not OPEN ("Session already settled", 400) — this check comes
first — then when the requester does not own it (403); otherwise close
the Yellow channel (advisory, no ledger effect), call `settlePayment`
once when an artist row exists and `total_beats_paid > 0`, credit the
artist only on `settlement.success`, and unconditionally mark the
session SETTLED via `settleSession`. -/
def settleRoute (cfg : ArcConfig) (svc : ArcOutcome) (hasArtist : Bool)
    (wallet : String) (s : Session) : SettleFlowOutcome :=
  if s.status ≠ SessionStatus.OPEN then
    { response := SettleResponse.alreadySettled, session := s,
      artistCredited := false, settlementAttempts := 0, settlementResult := none }
  else if s.user_wallet ≠ (toLowerCase wallet) then
    { response := SettleResponse.forbidden, session := s,
      artistCredited := false, settlementAttempts := 0, settlementResult := none }
  else if hasArtist ∧ s.total_beats_paid > 0 then
    let r := settlePayment cfg svc s.session_id
    { response := SettleResponse.ok r.txHash,
      session := settleSession s,
      artistCredited := r.success,
      settlementAttempts := 1,
      settlementResult := some r }
  else
    { response := SettleResponse.ok none,
      session := settleSession s,
      artistCredited := false,
      settlementAttempts := 0,
      settlementResult := none }

/-- The route's session checks in isolation (the `await getSession` read
followed by the two guards).  Both racing settle requests evaluate this
against the row as it stands at their own read. -/
def settleChecksPass (wallet : String) (s : Session) : Bool :=
  s.status = SessionStatus.OPEN && s.user_wallet = (toLowerCase wallet)

/-- Interleaving of two settle requests for the same session in which
both reads happen before either write (realizable: the route awaits
several external calls between its `getSession` read and its
`settleSession` write).  Returns how many times the close sequence is
entered, and the final row. -/
def raceTwoSettles (wallet : String) (s0 : Session) : Nat × Session :=
  let pass1 := settleChecksPass wallet s0
  let pass2 := settleChecksPass wallet s0
  let s1 := if pass1 then settleSession s0 else s0
  let s2 := if pass2 then settleSession s1 else s1
  ((if pass1 then 1 else 0) + (if pass2 then 1 else 0), s2)

/-! ### Stream history (migration v2: stream_history table, record_stream RPC) -/

/-- One row of `stream_history`.  The table has a surrogate `id` primary
key and no uniqueness constraint on `session_id` (only a foreign key). -/
structure StreamHistoryRow where
  user_wallet : String
  artist_id : String
  track_id : String
  session_id : String
  beats_paid : Int
  duration_seconds : Int
deriving DecidableEq, Repr

/-- `record_stream(...)`: a plain INSERT into `stream_history` with the
wallet lowercased; it never checks for an existing row. -/
def record_stream (hist : List StreamHistoryRow)
    (wallet artistId trackId sessionId : String) (beats duration : Int) :
    List StreamHistoryRow :=
  hist ++ [{ user_wallet := (toLowerCase wallet), artist_id := artistId,
             track_id := trackId, session_id := sessionId,
             beats_paid := beats, duration_seconds := duration }]

/-- Number of `stream_history` rows recorded for a given session. -/
def countSessionRows (hist : List StreamHistoryRow) (sessionId : String) : Nat :=
  (hist.filter (fun r => r.session_id == sessionId)).length

/-- `get_fan_artist_beats(p_wallet, p_artist_id)`:
`SELECT COALESCE(SUM(beats_paid), 0) FROM stream_history WHERE
user_wallet = LOWER(p_wallet) AND artist_id = p_artist_id`. -/
def get_fan_artist_beats (hist : List StreamHistoryRow)
    (wallet artistId : String) : Int :=
  (hist.filter (fun r => r.user_wallet == (toLowerCase wallet) && r.artist_id == artistId)).foldl
    (fun acc r => acc + r.beats_paid) 0

/-! ### Loyalty computation (services/ens.ts, config/constants.ts) -/

/-- `FAN_SUBDOMAIN_THRESHOLD = 100` (constants.ts). -/
def FAN_SUBDOMAIN_THRESHOLD : Int := 100

/-- `BEATSTREAM_ENS_DOMAIN = "beatstream.eth"` (constants.ts). -/
def BEATSTREAM_ENS_DOMAIN : String := "beatstream.eth"

/-- JS `String.prototype.replace` with a string pattern replaces only
the first occurrence. -/
def replaceFirst (s pat rep : String) : String :=
  match s.splitOn pat with
  | [] => s
  | [_] => s
  | h :: t => h ++ rep ++ String.intercalate pat t

/-- `checkFanSubdomainEligibility(totalBeatsStreamed)`:
`totalBeatsStreamed >= FAN_SUBDOMAIN_THRESHOLD`. -/
def checkFanSubdomainEligibility (totalBeatsStreamed : Int) : Bool :=
  FAN_SUBDOMAIN_THRESHOLD ≤ totalBeatsStreamed

/-- `generateFanSubdomain(fanWallet, artistEnsName)`:
`fan-<first6charsOfLowercasedWalletWithout0x>.<artistLabel>.beatstream.eth`
where `artistLabel` strips the first `.beatstream.eth` occurrence. -/
def generateFanSubdomain (fanWallet artistEnsName : String) : String :=
  let walletPrefix := (replaceFirst (toLowerCase fanWallet) "0x" "").take 6
  let artistLabel := replaceFirst artistEnsName ("." ++ BEATSTREAM_ENS_DOMAIN) ""
  "fan-" ++ walletPrefix ++ "." ++ artistLabel ++ "." ++ BEATSTREAM_ENS_DOMAIN

/-! ### Fan subdomains (migration v2 table, db/supabase.ts, routes/ens.ts) -/

/-- One row of `fan_subdomains`; the table declares
`UNIQUE(fan_wallet, artist_id)`. -/
structure FanSubdomainRow where
  fan_wallet : String
  artist_id : String
  subdomain : String
  total_beats_streamed : Int
deriving DecidableEq, Repr

/-- `createFanSubdomain` (db/supabase.ts): INSERT with the wallet
lowercased; the store's UNIQUE(fan_wallet, artist_id) constraint makes
the insert error out when a row for the pair already exists. -/
def createFanSubdomain (store : List FanSubdomainRow)
    (fanWallet artistId subdomain : String) (totalBeatsStreamed : Int) :
    Except String (List FanSubdomainRow) :=
  if store.any (fun r => r.fan_wallet == (toLowerCase fanWallet) && r.artist_id == artistId) then
    Except.error "duplicate key value violates unique constraint"
  else
    Except.ok (store ++ [{ fan_wallet := (toLowerCase fanWallet), artist_id := artistId,
                           subdomain := subdomain,
                           total_beats_streamed := totalBeatsStreamed }])

/-- One POST /api/ens/mint-fan-subdomain request (after signature and
artist-existence checks): the requesting wallet, the target artist, the
artist's ENS name, and the `stream_history` as of this request. -/
structure MintAttempt where
  wallet : String
  artistId : String
  artistEns : String
  history : List StreamHistoryRow
deriving DecidableEq, Repr

/-- Responses of the mint-fan-subdomain route. -/
inductive MintResponse
  | conflict409 (subdomain : String)
  | notEligible403
  | error500
  | created201 (subdomain : String)
deriving DecidableEq, Repr

/-- Whether a mint response is the success (201 created) response. -/
def MintResponse.isSuccess : MintResponse → Bool
  | MintResponse.created201 _ => true
  | _ => false

/-- The mint-fan-subdomain route: 409 "Fan subdomain already minted"
when `getFanSubdomain` finds an existing row for the pair; 403 when the
fan's history total is below the threshold; otherwise mint (on-chain or
simulated) and insert the row. -/
def mintFanSubdomainRoute (store : List FanSubdomainRow) (att : MintAttempt) :
    MintResponse × List FanSubdomainRow :=
  match store.find? (fun r => r.fan_wallet == (toLowerCase att.wallet) && r.artist_id == att.artistId) with
  | some r => (MintResponse.conflict409 r.subdomain, store)
  | none =>
    let totalBeats := get_fan_artist_beats att.history att.wallet att.artistId
    if checkFanSubdomainEligibility totalBeats = false then
      (MintResponse.notEligible403, store)
    else
      let sub := generateFanSubdomain att.wallet att.artistEns
      match createFanSubdomain store att.wallet att.artistId sub totalBeats with
      | Except.ok store2 => (MintResponse.created201 sub, store2)
      | Except.error _ => (MintResponse.error500, store)

/-- Run a sequence of mint requests against the store. -/
def runMintAttempts (atts : List MintAttempt) (store : List FanSubdomainRow) :
    List FanSubdomainRow :=
  atts.foldl (fun st att => (mintFanSubdomainRoute st att).2) store

/-- Number of `fan_subdomains` rows for a (lowercased wallet, artist)
pair. -/
def pairCount (store : List FanSubdomainRow) (w a : String) : Nat :=
  (store.filter (fun r => r.fan_wallet == w && r.artist_id == a)).length

/-! ### Concrete fixtures used to instantiate the theorems -/

/-- A fresh OPEN session, as `createSession` inserts it. -/
def session0 : Session :=
  { session_id := "s1", user_wallet := "0xaaa", artist_id := "a1", track_id := "t1",
    total_beats_paid := 0, last_signature := none, status := SessionStatus.OPEN }

/-- The same session after five paid ticks. -/
def openSession5 : Session :=
  { session0 with total_beats_paid := 5 }

/-- `session0` after `settleSession`. -/
def settledSession : Session :=
  { session0 with status := SessionStatus.SETTLED }

/-- Fresh `ActiveStream` as `handleStartStream` builds it for `session0`. -/
def stream0 : ActiveStream :=
  { sessionId := "s1", wallet := "0xaaa", channelId := none, intervalActive := true,
    secondsPlayed := 0, totalBeatsPaid := 0 }

/-- Metering-loop state for a listener holding exactly 5 beats. -/
def tick0 : TickState :=
  { balance := 5, stream := stream0, session := session0, channelUpdates := [],
    incrementCalls := 0, events := [] }

/-- A fully configured Circle Arc service. -/
def cfgFull : ArcConfig :=
  { walletSdk := true, circleWalletId := some "wallet-1",
    vaultContractAddress := some "0xvault" }

/-- Circle Arc with nothing configured (the simulation fallback). -/
def cfgUnset : ArcConfig :=
  { walletSdk := false, circleWalletId := none, vaultContractAddress := none }

/-- A history row worth 120 beats for the pair ("0xaaa", "a1"). -/
def histRow120 : StreamHistoryRow :=
  { user_wallet := "0xaaa", artist_id := "a1", track_id := "t1", session_id := "s0",
    beats_paid := 120, duration_seconds := 120 }

/-- An existing `fan_subdomains` row for the pair ("0xaaa", "a1"). -/
def fanRow1 : FanSubdomainRow :=
  { fan_wallet := "0xaaa", artist_id := "a1",
    subdomain := "fan-aaa.synthwave.beatstream.eth", total_beats_streamed := 120 }

/-- A mint request for the same pair as `fanRow1`. -/
def attDup : MintAttempt :=
  { wallet := "0xaaa", artistId := "a1", artistEns := "synthwave.beatstream.eth",
    history := [histRow120] }

/-! ## Theorems -/

/-- One atomic balance operation keeps the balance non-negative. -/
theorem applyBalanceOp_nonneg (b : Int) (op : BalanceOp) (h : 0 ≤ b) :
    0 ≤ applyBalanceOp b op := by
  cases op with
  | deposit n =>
    simp only [applyBalanceOp, credit_beats]
    omega
  | debit =>
    by_cases hb : b > 0
    · simp only [applyBalanceOp, debit_beat, if_pos hb]
      omega
    · simp only [applyBalanceOp, debit_beat, if_neg hb]
      exact h

/-- Any interleaving of atomic balance operations keeps the balance
non-negative. -/
theorem foldl_balance_nonneg (ops : List BalanceOp) :
    ∀ b : Int, 0 ≤ b → 0 ≤ ops.foldl applyBalanceOp b := by
  induction ops with
  | nil =>
    intro b h
    simpa using h
  | cons op rest ih =>
    intro b h
    simpa using ih _ (applyBalanceOp_nonneg b op h)

/-- C1: under every interleaving of atomic `credit_beats` deposits and
`debit_beat` debits the listener's `beats_balance` never becomes
negative; `debit_beat` is one atomic check-and-decrement that
decrements by 1 exactly when the balance is strictly positive and
returns `-1` leaving the row unchanged otherwise. -/
theorem C1_balance_never_negative (ops : List BalanceOp) (b0 b : Int)
    (h0 : 0 ≤ b0) :
    0 ≤ ops.foldl applyBalanceOp b0 ∧
    (0 < b → debit_beat b = (b - 1, b - 1)) ∧
    (¬ 0 < b → debit_beat b = (b, -1)) := by
  refine ⟨foldl_balance_nonneg ops b0 h0, ?_, ?_⟩
  · intro hb
    simp [debit_beat, hb]
  · intro hb
    simp [debit_beat, hb]

/-- C1 witness at a concrete interleaving and balance. -/
theorem C1_balance_never_negative_witness :
    0 ≤ (0 : Int) ∧
    (0 ≤ [BalanceOp.deposit 2, BalanceOp.debit, BalanceOp.debit,
          BalanceOp.debit].foldl applyBalanceOp 0 ∧
     (0 < (1 : Int) → debit_beat 1 = (1 - 1, 1 - 1)) ∧
     (¬ 0 < (1 : Int) → debit_beat 1 = (1, -1))) :=
  ⟨by decide,
   C1_balance_never_negative [BalanceOp.deposit 2, BalanceOp.debit, BalanceOp.debit,
     BalanceOp.debit] 0 1 (by decide)⟩

/-- One atomic session operation never decreases `total_beats_paid`. -/
theorem applySessionOp_total_le (s : Session) (op : SessionOp) :
    s.total_beats_paid ≤ (applySessionOp s op).total_beats_paid := by
  cases op with
  | tick sig =>
    simp only [applySessionOp, increment_session_payment]
    split
    · simp
    · exact le_refl _
  | settle =>
    simp [applySessionOp, settleSession]

/-- `total_beats_paid` is monotone along any sequence of atomic session
operations. -/
theorem foldl_session_total_le (ops : List SessionOp) :
    ∀ s : Session, s.total_beats_paid ≤ (ops.foldl applySessionOp s).total_beats_paid := by
  induction ops with
  | nil =>
    intro s
    simp
  | cons op rest ih =>
    intro s
    exact le_trans (applySessionOp_total_le s op) (by simpa using ih (applySessionOp s op))

/-- C2: `total_beats_paid` only increases (monotone along any sequence
of atomic session operations), an increment against an OPEN session
adds exactly 1, and an attempted increment against a non-OPEN session
leaves the row entirely unchanged. -/
theorem C2_credits_consumed_monotone (s : Session) (sig : String)
    (ops : List SessionOp) :
    (s.status ≠ SessionStatus.OPEN → increment_session_payment s sig = s) ∧
    (s.status = SessionStatus.OPEN →
      (increment_session_payment s sig).total_beats_paid = s.total_beats_paid + 1) ∧
    s.total_beats_paid ≤ (ops.foldl applySessionOp s).total_beats_paid := by
  refine ⟨?_, ?_, foldl_session_total_le ops s⟩
  · intro h
    simp [increment_session_payment, h]
  · intro h
    simp [increment_session_payment, h]

/-- C2 witness: a SETTLED session rejects the increment unchanged; an
OPEN session gains exactly 1; ticks then a settle never decrease the
counter. -/
theorem C2_credits_consumed_monotone_witness :
    (settledSession.status ≠ SessionStatus.OPEN →
      increment_session_payment settledSession "x" = settledSession) ∧
    (settledSession.status = SessionStatus.OPEN →
      (increment_session_payment settledSession "x").total_beats_paid =
        settledSession.total_beats_paid + 1) ∧
    settledSession.total_beats_paid ≤
      ([SessionOp.tick "a", SessionOp.settle].foldl applySessionOp settledSession).total_beats_paid :=
  C2_credits_consumed_monotone settledSession "x" [SessionOp.tick "a", SessionOp.settle]

/-- C3 counterexample: for a listener starting with exactly 5 beats,
the first five ticks all succeed — no exhaustion signal is emitted at
tick 5 — and when the signal does fire (tick 6) the loop merely stops:
the session row is still OPEN, not SETTLED, so no auto-close and no
settlement handoff happened. -/
theorem C3_counterexample :
    ((runTicks ["g1", "g2", "g3", "g4", "g5"] tick0).events.any WsEvent.isInsufficient
      = false) ∧
    (runTicks ["g1", "g2", "g3", "g4", "g5", "g6"] tick0).session.status
      = SessionStatus.OPEN ∧
    ¬ (runTicks ["g1", "g2", "g3", "g4", "g5", "g6"] tick0).session.status
      = SessionStatus.SETTLED := by
  decide

/-- C3 amended: on the first tick whose debit fails the loop emits the
`insufficient_beats` signal and stops the interval, but it does not
hand off to the settlement coordinator: for a listener starting with
exactly 5 beats, ticks 1–5 succeed, the signal fires on tick 6 carrying
totals of 5, and the session is left OPEN with `total_beats_paid = 5`. -/
theorem C3_amended :
    (runTicks ["g1", "g2", "g3", "g4", "g5", "g6"] tick0).events =
      [WsEvent.beat_tick 1 4 1, WsEvent.beat_tick 2 3 2, WsEvent.beat_tick 3 2 3,
       WsEvent.beat_tick 4 1 4, WsEvent.beat_tick 5 0 5,
       WsEvent.insufficient_beats 5 5] ∧
    (runTicks ["g1", "g2", "g3", "g4", "g5", "g6"] tick0).session.total_beats_paid = 5 ∧
    (runTicks ["g1", "g2", "g3", "g4", "g5", "g6"] tick0).session.status
      = SessionStatus.OPEN ∧
    (runTicks ["g1", "g2", "g3", "g4", "g5", "g6"] tick0).stream.intervalActive = false ∧
    (runTicks ["g1", "g2", "g3", "g4", "g5", "g6"] tick0).balance = 0 := by
  decide

/-- C10: a tick whose debit fails changes nothing besides clearing the
interval and sending the one `insufficient_beats` event — balance,
stream counters, session row, channel-update log and increment-call
count are untouched, and no `beat_tick` is sent; a tick whose debit
succeeds increases `secondsPlayed` and `totalBeatsPaid` by exactly 1. -/
theorem C10_tick_frame (sig : String) (st : TickState) :
    (st.balance ≤ 0 →
      tickBeat sig st =
        { st with
          stream := { st.stream with intervalActive := false },
          events := st.events ++
            [WsEvent.insufficient_beats st.stream.secondsPlayed st.stream.totalBeatsPaid] }) ∧
    (0 < st.balance →
      (tickBeat sig st).stream.secondsPlayed = st.stream.secondsPlayed + 1 ∧
      (tickBeat sig st).stream.totalBeatsPaid = st.stream.totalBeatsPaid + 1) := by
  constructor
  · intro h
    have hb : ¬ st.balance > 0 := by omega
    simp [tickBeat, debit_beat, hb]
  · intro h
    have h1 : ¬ ((st.balance - 1) < 0) := by omega
    simp [tickBeat, debit_beat, h, h1]

/-- C10 witness: a failing tick at balance 0 and a succeeding tick at
balance 5, both on the concrete fixture state. -/
theorem C10_tick_frame_witness :
    (({ tick0 with balance := 0 } : TickState).balance ≤ 0 →
      tickBeat "g1" { tick0 with balance := 0 } =
        { { tick0 with balance := 0 } with
          stream := { ({ tick0 with balance := 0 } : TickState).stream with
            intervalActive := false },
          events := ({ tick0 with balance := 0 } : TickState).events ++
            [WsEvent.insufficient_beats
              ({ tick0 with balance := 0 } : TickState).stream.secondsPlayed
              ({ tick0 with balance := 0 } : TickState).stream.totalBeatsPaid] }) ∧
    (0 < ({ tick0 with balance := 0 } : TickState).balance →
      (tickBeat "g1" { tick0 with balance := 0 }).stream.secondsPlayed =
        ({ tick0 with balance := 0 } : TickState).stream.secondsPlayed + 1 ∧
      (tickBeat "g1" { tick0 with balance := 0 }).stream.totalBeatsPaid =
        ({ tick0 with balance := 0 } : TickState).stream.totalBeatsPaid + 1) :=
  C10_tick_frame "g1" { tick0 with balance := 0 }

/-- C4 counterexample: with Circle fully configured and the settlement
call failing, the settle flow makes exactly one attempt (no retry) and
still marks the session SETTLED, not DISPUTED — a session whose
custodial settlement failed is marked SETTLED. -/
theorem C4_counterexample :
    (settleRoute cfgFull ArcOutcome.failed true "0xaaa" openSession5).settlementResult
      = some { success := false, txHash := none } ∧
    (settleRoute cfgFull ArcOutcome.failed true "0xaaa" openSession5).settlementAttempts
      = 1 ∧
    (settleRoute cfgFull ArcOutcome.failed true "0xaaa" openSession5).session.status
      = SessionStatus.SETTLED ∧
    ¬ (settleRoute cfgFull ArcOutcome.failed true "0xaaa" openSession5).session.status
      = SessionStatus.DISPUTED := by
  decide

/-- C4 amended: a settlement-service failure is not retried — the flow
makes exactly one `settlePayment` attempt, with no backoff and no
attempt ceiling — and does not halt the close or mark the session
DISPUTED: the artist is not credited and the session is still marked
SETTLED. -/
theorem C4_amended (cfg : ArcConfig) (wallet : String) (s : Session)
    (hcfg : arcConfigured cfg = true)
    (hopen : s.status = SessionStatus.OPEN)
    (howner : s.user_wallet = (toLowerCase wallet))
    (hbeats : 0 < s.total_beats_paid) :
    settleRoute cfg ArcOutcome.failed true wallet s =
      { response := SettleResponse.ok none,
        session := settleSession s,
        artistCredited := false,
        settlementAttempts := 1,
        settlementResult := some { success := false, txHash := none } } ∧
    (settleSession s).status = SessionStatus.SETTLED := by
  constructor
  · simp [settleRoute, hopen, howner, hbeats, settlePayment, hcfg]
  · simp [settleSession]

/-- C4 amended witness at the concrete configured flow. -/
theorem C4_amended_witness :
    (arcConfigured cfgFull = true ∧ openSession5.status = SessionStatus.OPEN ∧
     openSession5.user_wallet = (toLowerCase "0xaaa") ∧ 0 < openSession5.total_beats_paid) ∧
    (settleRoute cfgFull ArcOutcome.failed true "0xaaa" openSession5 =
      { response := SettleResponse.ok none,
        session := settleSession openSession5,
        artistCredited := false,
        settlementAttempts := 1,
        settlementResult := some { success := false, txHash := none } } ∧
     (settleSession openSession5).status = SessionStatus.SETTLED) :=
  ⟨⟨by decide, by decide, by decide, by decide⟩,
   C4_amended cfgFull "0xaaa" openSession5 (by decide) (by decide) (by decide) (by decide)⟩

/-- C5 counterexample: running `record_stream` twice for the same
`session_id` produces two `stream_history` rows for that session, not
one — the table has no uniqueness constraint on `session_id`. -/
theorem C5_counterexample :
    countSessionRows
        (record_stream (record_stream [] "0xA" "a1" "t1" "s9" 5 5) "0xA" "a1" "t1" "s9" 5 5)
        "s9" = 2 ∧
    ¬ countSessionRows
        (record_stream (record_stream [] "0xA" "a1" "t1" "s9" 5 5) "0xA" "a1" "t1" "s9" 5 5)
        "s9" = 1 := by
  decide

/-- C5 amended: the history write is not idempotent — each re-run of
the Phase-3 `record_stream` for the same `session_id` inserts one more
row, so running it twice adds exactly two rows for that session; the
settle route avoids duplicates only through its separate
`status = OPEN` pre-check. -/
theorem C5_amended (hist : List StreamHistoryRow)
    (w a t sid : String) (b1 d1 b2 d2 : Int) :
    countSessionRows
        (record_stream (record_stream hist w a t sid b1 d1) w a t sid b2 d2) sid
      = countSessionRows hist sid + 2 := by
  simp [record_stream, countSessionRows, List.filter_append]

/-- C6 counterexample: two settle requests racing on the same OPEN
session, whose `getSession` reads both happen before either write, both
pass the route's checks and both enter the close sequence — the status
transition is not an atomic compare-and-swap, so entry is not
at-most-once. -/
theorem C6_counterexample :
    settleChecksPass "0xaaa" session0 = true ∧
    (raceTwoSettles "0xaaa" session0).1 = 2 := by
  decide

/-- C6 amended: the route does fail with 400 already-settled when the
session is not OPEN and with 403 forbidden when the requester does not
own it (leaving the row unchanged in both cases), but the transition
out of OPEN is not a compare-and-swap: `settleSession` sets SETTLED
unconditionally on any row, and two racing stop requests that both read
the OPEN row both enter the close sequence. -/
theorem C6_amended (cfg : ArcConfig) (svc : ArcOutcome) (hasArtist : Bool)
    (wallet : String) (s : Session) :
    (s.status ≠ SessionStatus.OPEN →
      (settleRoute cfg svc hasArtist wallet s).response = SettleResponse.alreadySettled ∧
      (settleRoute cfg svc hasArtist wallet s).session = s) ∧
    (s.status = SessionStatus.OPEN → s.user_wallet ≠ (toLowerCase wallet) →
      (settleRoute cfg svc hasArtist wallet s).response = SettleResponse.forbidden ∧
      (settleRoute cfg svc hasArtist wallet s).session = s) ∧
    (settleSession s).status = SessionStatus.SETTLED ∧
    (settleChecksPass wallet s = true → (raceTwoSettles wallet s).1 = 2) := by
  refine ⟨?_, ?_, by simp [settleSession], ?_⟩
  · intro h
    simp [settleRoute, h]
  · intro hopen howner
    simp [settleRoute, hopen, howner]
  · intro hpass
    simp [raceTwoSettles, hpass]

/-- C6 amended witness: the SETTLED fixture is rejected as
already-settled, a foreign wallet is rejected as forbidden, and the
concrete race on the OPEN fixture enters the close sequence twice. -/
theorem C6_amended_witness :
    (settledSession.status ≠ SessionStatus.OPEN →
      (settleRoute cfgFull ArcOutcome.failed true "0xaaa" settledSession).response
        = SettleResponse.alreadySettled ∧
      (settleRoute cfgFull ArcOutcome.failed true "0xaaa" settledSession).session
        = settledSession) ∧
    (settledSession.status = SessionStatus.OPEN →
      settledSession.user_wallet ≠ (toLowerCase "0xaaa") →
      (settleRoute cfgFull ArcOutcome.failed true "0xaaa" settledSession).response
        = SettleResponse.forbidden ∧
      (settleRoute cfgFull ArcOutcome.failed true "0xaaa" settledSession).session
        = settledSession) ∧
    (settleSession settledSession).status = SessionStatus.SETTLED ∧
    (settleChecksPass "0xaaa" settledSession = true →
      (raceTwoSettles "0xaaa" settledSession).1 = 2) :=
  C6_amended cfgFull ArcOutcome.failed true "0xaaa" settledSession

/-- C9: when Circle Arc is not fully configured, `settlePayment`
fabricates a success with placeholder reference `0xsim_<sessionId>`,
and the settle flow then credits the artist and marks the session
SETTLED as if a real transfer had occurred. -/
theorem C9_simulated_settlement (cfg : ArcConfig) (svc : ArcOutcome)
    (wallet : String) (s : Session)
    (hcfg : arcConfigured cfg = false)
    (hopen : s.status = SessionStatus.OPEN)
    (howner : s.user_wallet = (toLowerCase wallet))
    (hbeats : 0 < s.total_beats_paid) :
    settlePayment cfg svc s.session_id =
      { success := true, txHash := some ("0xsim_" ++ s.session_id) } ∧
    (settleRoute cfg svc true wallet s).artistCredited = true ∧
    (settleRoute cfg svc true wallet s).session.status = SessionStatus.SETTLED ∧
    (settleRoute cfg svc true wallet s).response =
      SettleResponse.ok (some ("0xsim_" ++ s.session_id)) := by
  have hpay : settlePayment cfg svc s.session_id =
      { success := true, txHash := some ("0xsim_" ++ s.session_id) } := by
    simp [settlePayment, hcfg]
  refine ⟨hpay, ?_, ?_, ?_⟩ <;>
    simp [settleRoute, hopen, howner, hbeats, hpay, settleSession]

/-- C9 witness: the unconfigured fixture on the 5-beat OPEN session. -/
theorem C9_simulated_settlement_witness :
    (arcConfigured cfgUnset = false ∧ openSession5.status = SessionStatus.OPEN ∧
     openSession5.user_wallet = (toLowerCase "0xaaa") ∧ 0 < openSession5.total_beats_paid) ∧
    (settlePayment cfgUnset ArcOutcome.failed openSession5.session_id =
      { success := true, txHash := some ("0xsim_" ++ openSession5.session_id) } ∧
     (settleRoute cfgUnset ArcOutcome.failed true "0xaaa" openSession5).artistCredited
       = true ∧
     (settleRoute cfgUnset ArcOutcome.failed true "0xaaa" openSession5).session.status
       = SessionStatus.SETTLED ∧
     (settleRoute cfgUnset ArcOutcome.failed true "0xaaa" openSession5).response =
       SettleResponse.ok (some ("0xsim_" ++ openSession5.session_id))) :=
  ⟨⟨by decide, by decide, by decide, by decide⟩,
   C9_simulated_settlement cfgUnset ArcOutcome.failed "0xaaa" openSession5
     (by decide) (by decide) (by decide) (by decide)⟩

/-- Folding `+ beats_paid` over a row list equals the accumulator plus
the sum of the mapped `beats_paid` column. -/
theorem foldl_beats_eq_sum (l : List StreamHistoryRow) (acc : Int) :
    l.foldl (fun a r => a + r.beats_paid) acc
      = acc + (l.map StreamHistoryRow.beats_paid).sum := by
  induction l generalizing acc with
  | nil => simp
  | cons x xs ih =>
    simp only [List.foldl_cons, List.map_cons, List.sum_cons, ih]
    ring

/-- C7: `get_fan_artist_beats` equals the sum of `beats_paid` over the
history rows matching the (lowercased listener, artist) pair;
eligibility holds exactly when the total reaches the fixed threshold
`FAN_SUBDOMAIN_THRESHOLD = 100`; and `generateFanSubdomain` is a
deterministic pure function of the fan wallet and the artist ENS name. -/
theorem C7_loyalty_computation (hist : List StreamHistoryRow) (w a : String)
    (t : Int) (w1 e1 w2 e2 : String) :
    get_fan_artist_beats hist w a =
      ((hist.filter (fun r => r.user_wallet == toLowerCase w && r.artist_id == a)).map
        StreamHistoryRow.beats_paid).sum ∧
    (checkFanSubdomainEligibility t = true ↔ FAN_SUBDOMAIN_THRESHOLD ≤ t) ∧
    (w1 = w2 → e1 = e2 → generateFanSubdomain w1 e1 = generateFanSubdomain w2 e2) := by
  refine ⟨?_, ?_, ?_⟩
  · simpa [get_fan_artist_beats] using
      foldl_beats_eq_sum
        (hist.filter (fun r => r.user_wallet == toLowerCase w && r.artist_id == a)) 0
  · simp [checkFanSubdomainEligibility]
  · intro hw he
    rw [hw, he]

/-- C7 witness: the 120-beat history row, the threshold boundary, and a
concrete wallet/ENS pair. -/
theorem C7_loyalty_computation_witness :
    ("0xAAA" = "0xAAA" ∧ "synthwave.beatstream.eth" = "synthwave.beatstream.eth") ∧
    (get_fan_artist_beats [histRow120] "0xAAA" "a1" =
      (([histRow120].filter
          (fun r => r.user_wallet == toLowerCase "0xAAA" && r.artist_id == "a1")).map
        StreamHistoryRow.beats_paid).sum ∧
     (checkFanSubdomainEligibility 100 = true ↔ FAN_SUBDOMAIN_THRESHOLD ≤ 100) ∧
     ("0xAAA" = "0xAAA" → "synthwave.beatstream.eth" = "synthwave.beatstream.eth" →
       generateFanSubdomain "0xAAA" "synthwave.beatstream.eth" =
         generateFanSubdomain "0xAAA" "synthwave.beatstream.eth")) :=
  ⟨⟨rfl, rfl⟩,
   C7_loyalty_computation [histRow120] "0xAAA" "a1" 100
     "0xAAA" "synthwave.beatstream.eth" "0xAAA" "synthwave.beatstream.eth"⟩

/-- A mint request never takes the per-pair row count above 1: the
route inserts only when its `getFanSubdomain` pre-check finds no row,
and the insert is guarded by the UNIQUE(fan_wallet, artist_id)
constraint. -/
theorem mint_step_pairCount (store : List FanSubdomainRow) (att : MintAttempt)
    (w a : String) (h : pairCount store w a ≤ 1) :
    pairCount (mintFanSubdomainRoute store att).2 w a ≤ 1 := by
  unfold mintFanSubdomainRoute
  cases hfind : store.find?
      (fun r => r.fan_wallet == toLowerCase att.wallet && r.artist_id == att.artistId) with
  | some r =>
    simpa using h
  | none =>
    have hnone := List.find?_eq_none.mp hfind
    have hany : store.any
        (fun r => r.fan_wallet == toLowerCase att.wallet && r.artist_id == att.artistId)
        = false := by
      rw [List.any_eq_false]
      intro x hx
      exact hnone x hx
    cases helig : checkFanSubdomainEligibility
        (get_fan_artist_beats att.history att.wallet att.artistId) with
    | false =>
      simpa [helig] using h
    | true =>
      simp only [helig, createFanSubdomain, hany, Bool.false_eq_true, if_false]
      by_cases hwa : toLowerCase att.wallet = w ∧ att.artistId = a
      · have hzero : store.filter (fun r => r.fan_wallet == w && r.artist_id == a) = [] := by
          rw [List.filter_eq_nil_iff]
          intro x hx
          rw [← hwa.1, ← hwa.2]
          exact hnone x hx
        simp [pairCount, List.filter_append, hzero, hwa.1, hwa.2]
      · have hbeq : ((toLowerCase att.wallet == w) && (att.artistId == a)) = false := by
          cases hq : (toLowerCase att.wallet == w) with
          | false => simp
          | true =>
            have hw : toLowerCase att.wallet = w := by simpa using hq
            have ha : att.artistId ≠ a := fun hc => hwa ⟨hw, hc⟩
            simp [ha]
        simpa [pairCount, List.filter_append, hbeq] using h

/-- The per-pair row count stays at most 1 across any sequence of mint
requests. -/
theorem runMint_pairCount (atts : List MintAttempt) :
    ∀ store w a, pairCount store w a ≤ 1 →
      pairCount (runMintAttempts atts store) w a ≤ 1 := by
  induction atts with
  | nil =>
    intro store w a h
    simpa [runMintAttempts] using h
  | cons att rest ih =>
    intro store w a h
    simpa [runMintAttempts] using
      ih (mintFanSubdomainRoute store att).2 w a (mint_step_pairCount store att w a h)

/-- C8 counterexample: a mint request for a pair that already has a row
is answered with the 409 "Fan subdomain already minted" conflict error,
not with a success response — the duplicate-grant attempt is an error,
not idempotent success. -/
theorem C8_counterexample :
    (mintFanSubdomainRoute [fanRow1] attDup).1
      = MintResponse.conflict409 fanRow1.subdomain ∧
    (mintFanSubdomainRoute [fanRow1] attDup).1.isSuccess = false ∧
    (mintFanSubdomainRoute [fanRow1] attDup).2 = [fanRow1] := by
  decide

/-- C8 amended: at most one `fan_subdomains` row ever exists per
(listener, creator) pair — the route's pre-check plus the store's
UNIQUE(fan_wallet, artist_id) constraint keep the per-pair count at
most 1 across any sequence of mint requests — but a duplicate-grant
attempt is rejected with a 409 conflict error, not treated as
success. -/
theorem C8_at_most_one_grant (store store2 : List FanSubdomainRow)
    (atts : List MintAttempt) (w a : String) (att : MintAttempt)
    (r : FanSubdomainRow)
    (h : pairCount store w a ≤ 1)
    (hdup : store2.find?
      (fun q => q.fan_wallet == toLowerCase att.wallet && q.artist_id == att.artistId)
      = some r) :
    pairCount (runMintAttempts atts store) w a ≤ 1 ∧
    mintFanSubdomainRoute store2 att = (MintResponse.conflict409 r.subdomain, store2) ∧
    (MintResponse.conflict409 r.subdomain).isSuccess = false := by
  refine ⟨runMint_pairCount atts store w a h, ?_, rfl⟩
  unfold mintFanSubdomainRoute
  rw [hdup]

/-- C8 witness: the singleton store with its duplicate request. -/
theorem C8_at_most_one_grant_witness :
    (pairCount [fanRow1] "0xaaa" "a1" ≤ 1 ∧
     [fanRow1].find?
       (fun q => q.fan_wallet == toLowerCase attDup.wallet && q.artist_id == attDup.artistId)
       = some fanRow1) ∧
    (pairCount (runMintAttempts [attDup] [fanRow1]) "0xaaa" "a1" ≤ 1 ∧
     mintFanSubdomainRoute [fanRow1] attDup
       = (MintResponse.conflict409 fanRow1.subdomain, [fanRow1]) ∧
     (MintResponse.conflict409 fanRow1.subdomain).isSuccess = false) :=
  ⟨⟨by decide, by decide⟩,
   C8_at_most_one_grant [fanRow1] [fanRow1] [attDup] "0xaaa" "a1" attDup fanRow1
     (by decide) (by decide)⟩

end BeatStream
